import Mathlib

/-!
Shallow embedding of the phoqe/brand CLI (a Firebase user-administration
tool). The embedding covers:

* the identifier classifier of `src/auth.js` (`isEmail`, `isPhoneNumber`)
  and the resolution functions built on it (`getUidById`, `getUserById`);
* the field coercion performed by `updateUser` / `createUser`;
* the batch fan-out pattern of the commands in `src/index.js`
  (`disable`, `enable`, `delete`, `revoke`, `get`): per-identifier
  resolution with a caught failure, `Promise.all` aggregation, a falsy
  check on each resolved uid, then per-identifier actions with caught
  failures, and the final exit path.

The directory service (firebase-admin's `auth()`) is external to the
repository; where a claim needs its behaviour it is modelled from the
spec as an explicit store.
-/

/-- The characters matched by the JavaScript regex class `\s`
(ECMAScript WhiteSpace and LineTerminator code points). -/
def isJsSpace (c : Char) : Bool :=
  c.val = 0x9 || c.val = 0xA || c.val = 0xB || c.val = 0xC || c.val = 0xD ||
  c.val = 0x20 || c.val = 0xA0 || c.val = 0x1680 ||
  (0x2000 ≤ c.val && c.val ≤ 0x200A) ||
  c.val = 0x2028 || c.val = 0x2029 || c.val = 0x202F || c.val = 0x205F ||
  c.val = 0x3000 || c.val = 0xFEFF

/-- ECMAScript line terminators, the code points at which `^`/`$` match in
multiline mode and which the `.` class never matches. -/
def isLineTerm (c : Char) : Bool :=
  c.val = 0xA || c.val = 0xD || c.val = 0x2028 || c.val = 0x2029

/-- A character admitted by the negated class
`[^<>()[\]\.,;:\s@\"]` of the email regex in `src/auth.js` (`isEmail`). -/
def emailAtomChar (c : Char) : Bool :=
  !(c = '<' || c = '>' || c = '(' || c = ')' || c = '[' || c = ']' ||
    c = '.' || c = ',' || c = ';' || c = ':' || c = '@' || c = '\"' ||
    isJsSpace c)

/-- The dot-atom alternative of the local part:
`[^...]+(\.[^...]+)*` — dot-separated nonempty atoms of admitted
characters. Splitting on `'.'` is exact because the class excludes `'.'`. -/
def dotAtomOk (cs : List Char) : Bool :=
  (cs.splitOn '.').all fun a => !a.isEmpty && a.all emailAtomChar

/-- The quoted alternative of the local part: `\".+\"` — an opening and a
closing double quote around one or more characters, none a line
terminator (`.` does not match line terminators in JS). -/
def quotedLocalOk (cs : List Char) : Bool :=
  3 ≤ cs.length && cs.head? == some '\"' && cs.getLast? == some '\"' &&
  ((cs.drop 1).dropLast.all fun c => !isLineTerm c)

/-- The domain of the email regex: `(([^...]+\.)+[^...]{2,})` —
at least two dot-separated nonempty atoms, the last of length ≥ 2. -/
def emailDomainOk (cs : List Char) : Bool :=
  let parts := cs.splitOn '.'
  2 ≤ parts.length &&
  parts.all (fun a => !a.isEmpty && a.all emailAtomChar) &&
  (match parts.getLast? with
   | some last => 2 ≤ last.length
   | none => false)

/-- `isEmail` from `src/auth.js`: the anchored test
`/^((atom(\.atom)*)|(\".+\"))@((atom\.)+atom{2,})$/i`. The whole input
must decompose at some `'@'` into a valid local part and a valid domain
(`'@'` may occur inside a quoted local part, hence the search over all
split points). The `i` flag is irrelevant: the classes are negated and
contain no letters. -/
def isEmail (s : String) : Bool :=
  let cs := s.toList
  (List.range cs.length).any fun i =>
    cs.getD i ' ' == '@' && dotAtomLocalOrQuoted (cs.take i) &&
      emailDomainOk (cs.drop (i + 1))
where
  /-- Either alternative of the local part. -/
  dotAtomLocalOrQuoted (cs : List Char) : Bool :=
    dotAtomOk cs || quotedLocalOk cs

/-- A character of the optional separator class `[-\s\.]` of the phone
regex. -/
def sepChar (c : Char) : Bool :=
  c = '-' || isJsSpace c || c = '.'

/-- Consume an optional single occurrence of `c` (regex `x?` for a
single-character class disjoint from what follows, hence deterministic). -/
def dropOptChar (c : Char) : List Char → List Char
  | [] => []
  | x :: xs => if x = c then xs else x :: xs

/-- Consume an optional separator character `[-\s\.]?`. -/
def dropOptSep : List Char → List Char
  | [] => []
  | x :: xs => if sepChar x then xs else x :: xs

/-- Consume exactly `n` digits (`[0-9]{n}`), or fail. -/
def takeDigits : Nat → List Char → Option (List Char)
  | 0, cs => some cs
  | _ + 1, [] => none
  | n + 1, c :: cs => if c.isDigit then takeDigits n cs else none

/-- The body of the phone regex of `src/auth.js`, applied to an exact
slice (from a `^` position to a `$` position):
`[\+]?[(]?[0-9]{3}[)]?[-\s\.]?[0-9]{3}[-\s\.]?[0-9]{4,6}`.
Each optional element's characters are disjoint from the digit that must
follow, so the parse is deterministic. -/
def phoneBody (cs : List Char) : Bool :=
  let cs := dropOptChar '+' cs
  let cs := dropOptChar '(' cs
  match takeDigits 3 cs with
  | none => false
  | some cs =>
    let cs := dropOptChar ')' cs
    let cs := dropOptSep cs
    match takeDigits 3 cs with
    | none => false
    | some cs =>
      let cs := dropOptSep cs
      cs.all Char.isDigit && 4 ≤ cs.length && cs.length ≤ 6

/-- In multiline mode `^` matches at position `i` iff `i` is the start of
the string or follows a line terminator. -/
def lineStartAt (cs : List Char) (i : Nat) : Bool :=
  i = 0 ||
  (match cs.getD (i - 1) ' ' with
   | c => isLineTerm c) && i - 1 < cs.length

/-- In multiline mode `$` matches at position `j` iff `j` is the end of
the string or a line terminator stands at `j`. -/
def lineEndAt (cs : List Char) (j : Nat) : Bool :=
  j = cs.length ||
  (j < cs.length && isLineTerm (cs.getD j ' '))

/-- `isPhoneNumber` from `src/auth.js`: the test
`/^[\+]?[(]?[0-9]{3}[)]?[-\s\.]?[0-9]{3}[-\s\.]?[0-9]{4,6}$/im`.
The `m` flag makes `^`/`$` match at line boundaries, so `.test` succeeds
iff some slice between a line start and a line end matches the body
(the `\s` separators may themselves consume line terminators, so the
match is taken on the raw slice, not on split lines). -/
def isPhoneNumber (s : String) : Bool :=
  let cs := s.toList
  (List.range (cs.length + 1)).any fun i =>
    lineStartAt cs i &&
    ((List.range (cs.length + 1)).any fun j =>
      lineEndAt cs j && phoneBody ((cs.drop i).take (j - i)))

/-- The three identifier kinds of spec §4.1. -/
inductive Kind where
  | Email
  | Phone
  | Opaque
deriving DecidableEq, Repr

/-- The global commander options `--email` (alias `-e`) and
`--phone-number` (alias `-p`), read via `program.opts()` in
`src/auth.js`. -/
structure Opts where
  email : Bool
  phoneNumber : Bool
deriving DecidableEq, Repr

/-- The identifier classifier of spec §4.1: exactly the branch structure
shared by `getUidById` and `getUserById` in `src/auth.js`
(`if (isEmail(id) || opts.email) … else if (isPhoneNumber(id) ||
opts.phoneNumber) … else …`). -/
def classify (opts : Opts) (input : String) : Kind :=
  if isEmail input || opts.email then .Email
  else if isPhoneNumber input || opts.phoneNumber then .Phone
  else .Opaque

/-- A user record as exposed by the directory service (the fields the
tool reads/writes; spec §3). -/
structure UserRecord where
  uid : String
  email : Option String
  emailVerified : Bool
  displayName : Option String
  phoneNumber : Option String
  photoURL : Option String
  disabled : Bool
deriving DecidableEq, Repr

/-- The external directory-service lookups consumed by `src/auth.js`
(firebase-admin `auth.getUserByEmail` / `auth.getUserByPhoneNumber` /
`auth.getUser`), abstracted as fallible functions. -/
structure Directory where
  getUserByEmail : String → Except String UserRecord
  getUserByPhoneNumber : String → Except String UserRecord
  getUser : String → Except String UserRecord

/-- `getUidById` from `src/auth.js`: email-shaped (or `--email`) inputs
go to the email lookup, then phone-shaped (or `--phone-number`) inputs to
the phone lookup, resolving `user.uid`; everything else resolves to the
input itself without any service call. -/
def getUidById (dir : Directory) (opts : Opts) (id : String) :
    Except String String :=
  if isEmail id || opts.email then
    (dir.getUserByEmail id).map (fun u => u.uid)
  else if isPhoneNumber id || opts.phoneNumber then
    (dir.getUserByPhoneNumber id).map (fun u => u.uid)
  else
    .ok id

/-- `getUserById` from `src/auth.js`: same branch structure as
`getUidById` but resolves the whole record, and the opaque branch calls
`auth.getUser` instead of succeeding immediately. -/
def getUserById (dir : Directory) (opts : Opts) (id : String) :
    Except String UserRecord :=
  if isEmail id || opts.email then
    dir.getUserByEmail id
  else if isPhoneNumber id || opts.phoneNumber then
    dir.getUserByPhoneNumber id
  else
    dir.getUser id

deriving instance DecidableEq for Except

/-- Whether a settled call failed. -/
def isErr {ε α : Type} : Except ε α → Bool
  | .error _ => true
  | .ok _ => false

/-- Per-identifier terminal states of the batch state machine of spec
§4.2 (`Done`, `ActionFailed`, `ResolutionFailed`), plus the extra
terminal `SkippedFalsyUid` that the `if (!uid) return` check in the
batch commands of `src/index.js` introduces for an identifier whose
resolution succeeded with a falsy (empty) uid. -/
inductive Outcome where
  | Done
  | ActionFailed
  | ResolutionFailed
  | SkippedFalsyUid
deriving DecidableEq, Repr

instance : Inhabited Outcome := ⟨.Done⟩

/-- Stage 1 of every batch command in `src/index.js`: the per-identifier
resolution promise `getUidById(id).catch(console.log(...))`, whose catch
turns a rejection into a promise resolving `undefined`. -/
def resolveCaught (resolve : String → Except String String) (id : String) :
    Option String :=
  (resolve id).toOption

/-- The `if (!uid) return` skip condition of `uids.forEach`: JS
falsiness of a settled resolution cell — `undefined` (a caught failure)
or the empty string. -/
def falsyCell : Option String → Bool
  | none => true
  | some uid => uid = ""

/-- Stage 2: the fate of one settled uid cell in the batch commands —
falsy cells are skipped before the action is dispatched; otherwise the
action runs under its own `.then(log).catch(log)`. -/
def cellOutcome (act : String → Except String UserRecord) :
    Option String → Outcome
  | none => .ResolutionFailed
  | some uid =>
    if uid = "" then .SkippedFalsyUid
    else
      match act uid with
      | .ok _ => .Done
      | .error _ => .ActionFailed

/-- The per-identifier outcomes of one batch command (`disable`,
`enable`, `delete`, `revoke`): resolution cells in `Promise.all` order,
then the action stage on each cell. -/
def runBatchOutcomes (resolve : String → Except String String)
    (act : String → Except String UserRecord) (ids : List String) :
    List Outcome :=
  (ids.map (resolveCaught resolve)).map (cellOutcome act)

/-- An outcome in which the action stage was actually entered. -/
def proceeded : Outcome → Bool
  | .Done => true
  | .ActionFailed => true
  | _ => false

/-- Recognises the `ResolutionFailed` outcome. -/
def isResolutionFailed : Outcome → Bool
  | .ResolutionFailed => true
  | _ => false

/-- Every successful resolution over this batch yields a non-empty
(truthy) uid — the situation the `if (!uid)` skip check silently
assumes. -/
def resolvedNonEmptyOn (resolve : String → Except String String)
    (ids : List String) : Bool :=
  ids.all fun id =>
    match resolve id with
    | .ok uid => !(uid = "")
    | .error _ => true

/-- The resolution or the action of this identifier fails: resolution
rejects, or it yields a non-falsy uid on which the action rejects. -/
def middleFails (resolve : String → Except String String)
    (act : String → Except String UserRecord) (b : String) : Bool :=
  match resolve b with
  | .error _ => true
  | .ok ub => !(ub = "") && isErr (act ub)

/-- `Promise.all` over already-settled promises: rejects with the first
rejection, otherwise resolves to the list of values in request order. -/
def promiseAll {ε α : Type} : List (Except ε α) → Except ε (List α)
  | [] => .ok []
  | p :: ps =>
    match p with
    | .error e => .error e
    | .ok a => (promiseAll ps).map (fun as => a :: as)

/-- One dispatched action promise with its `.then(console.log(...))
.catch(console.log(...))`: it settles successfully whatever the action
did. -/
def actCaught (act : String → Except String UserRecord) (uid : String) :
    Except String Unit :=
  match act uid with
  | .ok _ => .ok ()
  | .error _ => .ok ()

/-- The `disable` command action of `src/index.js` down to its exit
code: per-identifier resolution promises, each caught, joined by
`Promise.all`; falsy cells skipped; per-uid action promises, each
caught, joined by `Promise.all`; then `success()` exits 0 and the two
`.catch((reason) => error(...))` handlers exit 1. (`enable`, `delete`
and `revoke` share this structure verbatim.) -/
def disableCommand (resolve : String → Except String String)
    (act : String → Except String UserRecord) (ids : List String) : Nat :=
  match promiseAll (ids.map fun id =>
      (Except.ok (resolveCaught resolve id) : Except String (Option String))) with
  | .error _ => 1
  | .ok uids =>
    match promiseAll ((uids.filter fun c => !falsyCell c).map
        fun c => actCaught act (c.getD "")) with
    | .error _ => 1
    | .ok _ => 0

/-- `Promise.all`'s aggregation under an arbitrary completion order: an
array of result cells indexed by request position, each completion event
writing only its own cell. `order` is the sequence in which the requests
settle; `results i` is what request `i` settles to. -/
def settleAll {α : Type} (n : Nat) (results : Nat → α) (order : List Nat) :
    List (Option α) :=
  order.foldl (fun acc i => acc.set i (some (results i)))
    (List.replicate n none)

/-- Fields as supplied to `createUser` / `updateUser` in `src/auth.js`
(a JS object whose properties may each be `undefined`). -/
structure NewUser where
  uid : Option String
  email : Option String
  emailVerified : Option Bool
  displayName : Option String
  phoneNumber : Option String
  photoURL : Option String
  disabled : Option Bool
deriving DecidableEq, Repr

/-- The JS expression `s || undefined` on a possibly-undefined string
field: an empty (falsy) string becomes `undefined`. -/
def orUndefStr : Option String → Option String
  | none => none
  | some s => if s = "" then none else some s

/-- The JS expression `b || undefined` on a possibly-undefined boolean
field: `false` becomes `undefined`. -/
def orUndefBool : Option Bool → Option Bool
  | none => none
  | some b => if b then some true else none

/-- The coercion block shared by `updateUser` and `createUser` in
`src/auth.js`: every falsy supplied field is replaced by `undefined`
before the service call (`createUser` also coerces `uid`). -/
def coerceNewUser (u : NewUser) : NewUser :=
  ⟨orUndefStr u.uid, orUndefStr u.email, orUndefBool u.emailVerified,
   orUndefStr u.displayName, orUndefStr u.phoneNumber,
   orUndefStr u.photoURL, orUndefBool u.disabled⟩

/-- Modelled from the spec: the external directory service's record
store. The service itself (firebase-admin's `auth()`) is not part of
the repository; spec §3 and §6 describe it as a record store with
`createUser(fields)`, `updateUser(UserId, partialFields)` and
uid/email/phone lookups, an absent field meaning "unset" on create and
"unchanged" on update, the verified and disabled flags defaulting to
false. -/
abbrev Store := List UserRecord

/-- Modelled from the spec: lookup by native uid
(`getUserByIdentifier` for an opaque id, spec §6). -/
def serviceGetUser (st : Store) (uid : String) : Except String UserRecord :=
  match st.find? (fun r => r.uid == uid) with
  | some r => .ok r
  | none => .error "no user record for uid"

/-- Modelled from the spec: lookup by email address. -/
def serviceGetUserByEmail (st : Store) (e : String) :
    Except String UserRecord :=
  match st.find? (fun r => r.email == some e) with
  | some r => .ok r
  | none => .error "no user record for email"

/-- Modelled from the spec: lookup by phone number. -/
def serviceGetUserByPhoneNumber (st : Store) (p : String) :
    Except String UserRecord :=
  match st.find? (fun r => r.phoneNumber == some p) with
  | some r => .ok r
  | none => .error "no user record for phone number"

/-- The directory capability induced by a concrete store. -/
def storeDirectory (st : Store) : Directory :=
  ⟨fun e => serviceGetUserByEmail st e,
   fun p => serviceGetUserByPhoneNumber st p,
   fun uid => serviceGetUser st uid⟩

/-- Modelled from the spec: `createUser(fields) -> Future<UserRecord>`
(spec §6). The service stores a record under the supplied uid, or a
service-generated uid `genUid` when none was supplied; unset boolean
fields default to false, unset optional fields stay absent. -/
def serviceCreate (genUid : String) (f : NewUser) (st : Store) :
    UserRecord × Store :=
  let uid := f.uid.getD genUid
  let r : UserRecord :=
    ⟨uid, f.email, f.emailVerified.getD false, f.displayName,
     f.phoneNumber, f.photoURL, f.disabled.getD false⟩
  (r, st ++ [r])

/-- A present partial field replaces the stored value; an absent one
leaves it unchanged. -/
def mergeField {α : Type} : Option α → Option α → Option α
  | some v, _ => some v
  | none, old => old

/-- Modelled from the spec: `updateUser(UserId, partialFields) ->
Future<UserRecord>` (spec §6): fields present in the partial object
replace the stored values, absent fields are unchanged. -/
def serviceUpdate (uid : String) (f : NewUser) (st : Store) :
    Except String (UserRecord × Store) :=
  match st.find? (fun r => r.uid == uid) with
  | none => .error "no user record for uid"
  | some r =>
    let r2 : UserRecord :=
      ⟨r.uid, mergeField f.email r.email,
       f.emailVerified.getD r.emailVerified,
       mergeField f.displayName r.displayName,
       mergeField f.phoneNumber r.phoneNumber,
       mergeField f.photoURL r.photoURL,
       f.disabled.getD r.disabled⟩
    .ok (r2, st.map (fun q => if q.uid == uid then r2 else q))

/-- `updateUser` from `src/auth.js`: coerce every falsy supplied field
to `undefined`, then call the service update with the partial object. -/
def updateUser (uid : String) (newUser : NewUser) (st : Store) :
    Except String (UserRecord × Store) :=
  serviceUpdate uid (coerceNewUser newUser) st

/-- `createUser` from `src/auth.js`: coerce every falsy supplied field
(including `uid`) to `undefined`, then call the service create. -/
def createUser (genUid : String) (newUser : NewUser) (st : Store) :
    UserRecord × Store :=
  serviceCreate genUid (coerceNewUser newUser) st

/-- The uid under which `createUser` stores the new record. -/
def createdUid (genUid : String) (f : NewUser) : String :=
  ((coerceNewUser f).uid).getD genUid

/-- Whether a possibly-supplied string field is JS-truthy when present. -/
def truthyOpt : Option String → Bool
  | none => true
  | some s => !(s = "")

/-- A directory in which every lookup fails (nothing matches). -/
def dirNone : Directory :=
  ⟨fun _ => .error "user not found",
   fun _ => .error "user not found",
   fun _ => .error "user not found"⟩

/-- A directory whose email lookup always fails but whose phone lookup
succeeds — it separates the two lookup paths. -/
def dirPhoneOnly : Directory :=
  ⟨fun _ => .error "email lookup failed",
   fun _ => .ok ⟨"phone-uid", none, false, none, some "0701234567", none, false⟩,
   fun _ => .error "uid lookup failed"⟩

/-- A concrete resolver for witnesses: the two email-shaped identifiers
resolve to uids, everything else resolves to itself (the opaque path). -/
def resolveW : String → Except String String := fun id =>
  if id = "a@x.com" then .ok "u1"
  else if id = "b@x.com" then .ok "u2"
  else .ok id

/-- A concrete action for witnesses: fails exactly on the uid
`"bad-id"`. -/
def actW : String → Except String UserRecord := fun uid =>
  if uid = "bad-id" then .error "no user record for uid"
  else .ok ⟨uid, none, false, none, none, none, true⟩

/-- An action that succeeds on every uid. -/
def actOk : String → Except String UserRecord := fun uid =>
  .ok ⟨uid, none, false, none, none, none, true⟩

/-- A supplied field set whose email is the empty string: supplied but
falsy. -/
def newUserCex : NewUser :=
  ⟨none, some "", none, some "Name", none, none, none⟩

/-- A supplied field set with every string field non-empty and both
boolean flags supplied. -/
def newUserW : NewUser :=
  ⟨none, some "w@x.com", some false, some "W Name", some "0701234567",
   some "photo-url", some true⟩

/-- A stored record with both flags raised, for the update-frame
witness. -/
def rW : UserRecord :=
  ⟨"u1", some "e@x.com", true, some "Old", none, none, true⟩

/-- An update supplying only falsy values (empty strings and false). -/
def fW : NewUser :=
  ⟨none, some "", some false, none, some "", none, some false⟩

example : isEmail "a@x.com" = true := by decide
example : isEmail "bad-id" = false := by decide
example : isPhoneNumber "0701234567" = true := by decide
example : isPhoneNumber "bad-id" = false := by decide
example : isPhoneNumber "+46762332652" = true := by decide
example : isEmail "" = false := by decide
example : isPhoneNumber "" = false := by decide
example : isEmail "\"a b\"@x.co" = true := by decide
example : isEmail "a@x.c" = false := by decide
example : isEmail "a..b@x.com" = false := by decide
example : isEmail "a@b@x.com" = false := by decide
example : isEmail ".a@x.com" = false := by decide
example : isEmail "\"\"@x.com" = false := by decide
example : isEmail "a@x.com " = false := by decide
example : isPhoneNumber "(070) 123-4567" = true := by decide
example : isPhoneNumber "+467 623 32652" = true := by decide
example : isPhoneNumber "+46 762 332652" = false := by decide
example : isPhoneNumber "07012345678" = true := by decide
example : isPhoneNumber "070123456789" = true := by decide
example : isPhoneNumber "0701234567890" = false := by decide
example : isPhoneNumber "070-123" = false := by decide
example : isPhoneNumber "hello\n0701234567" = true := by decide
example : isPhoneNumber "070\n1234567" = true := by decide
example : isPhoneNumber "0701234567hello" = false := by decide

/-! ### Classifier claims -/

/-- C1 counterexample: the input `"a@x.com"` is email-shaped; with the
phone-force flag set (and the email flag unset) the claim predicts that
the force flag wins and the input is classified Phone, but the code
tests `isEmail(id) || opts.email` first, classifies it Email, and
resolves it via the email lookup — which here fails even though the
phone lookup would have succeeded. -/
theorem phone_flag_loses_cex :
    isEmail "a@x.com" = true ∧
    classify ⟨false, true⟩ "a@x.com" = Kind.Email ∧
    classify ⟨false, true⟩ "a@x.com" ≠ Kind.Phone ∧
    getUidById dirPhoneOnly ⟨false, true⟩ "a@x.com"
      = Except.error "email lookup failed" := by
  refine ⟨by decide, by decide, by decide, ?_⟩
  rfl

/-- C1 amended: for every email-shaped input the classifier returns
Email whatever the force flags are; the phone-force flag never wins over
the email shape (it only affects inputs failing the email test with the
email flag unset). -/
theorem classify_email_shaped (opts : Opts) (s : String)
    (h : isEmail s = true) : classify opts s = Kind.Email := by
  unfold classify
  rw [h]
  simp

/-- Witness for `classify_email_shaped` at `"a@x.com"` with the
phone-force flag set. -/
theorem classify_email_shaped_witness :
    isEmail "a@x.com" = true ∧ classify ⟨false, true⟩ "a@x.com" = Kind.Email :=
  ⟨by decide, classify_email_shaped ⟨false, true⟩ "a@x.com" (by decide)⟩

/-- C6: an input matching neither the email nor the phone shape, with no
force flags set, classifies Opaque and resolves verbatim to itself. -/
theorem classify_opaque_verbatim (dir : Directory) (s : String)
    (he : isEmail s = false) (hp : isPhoneNumber s = false) :
    classify ⟨false, false⟩ s = Kind.Opaque ∧
    getUidById dir ⟨false, false⟩ s = Except.ok s := by
  constructor
  · unfold classify; rw [he, hp]; simp
  · unfold getUidById; rw [he, hp]; simp

/-- Witness for `classify_opaque_verbatim` at `"bad-id"`. -/
theorem classify_opaque_verbatim_witness :
    classify ⟨false, false⟩ "bad-id" = Kind.Opaque ∧
    getUidById dirNone ⟨false, false⟩ "bad-id" = Except.ok "bad-id" :=
  classify_opaque_verbatim dirNone "bad-id" (by decide) (by decide)

/-- C7: a phone-shaped input that is not email-shaped classifies Phone
(email flag unset; the phone-force flag may have either value) and is
resolved through the phone-number lookup. -/
theorem classify_phone_shaped (fp : Bool) (dir : Directory) (s : String)
    (hp : isPhoneNumber s = true) (he : isEmail s = false) :
    classify ⟨false, fp⟩ s = Kind.Phone ∧
    getUidById dir ⟨false, fp⟩ s
      = (dir.getUserByPhoneNumber s).map (fun u => u.uid) := by
  constructor
  · unfold classify; rw [he, hp]; simp
  · unfold getUidById; rw [he, hp]; simp

/-- Witness for `classify_phone_shaped` at `"0701234567"`. -/
theorem classify_phone_shaped_witness :
    classify ⟨false, false⟩ "0701234567" = Kind.Phone ∧
    getUidById dirPhoneOnly ⟨false, false⟩ "0701234567"
      = (dirPhoneOnly.getUserByPhoneNumber "0701234567").map
          (fun u => u.uid) :=
  classify_phone_shaped false dirPhoneOnly "0701234567" (by decide) (by decide)

/-- C10: with no force flags, an input matching neither shape resolves
to itself without consulting the directory service: the result is the
same success for every directory, so the identifier can never reach
ResolutionFailed — only the action stage can observe its
non-existence. -/
theorem opaque_resolution_never_fails (dir dir2 : Directory) (s : String)
    (he : isEmail s = false) (hp : isPhoneNumber s = false) :
    getUidById dir ⟨false, false⟩ s = Except.ok s ∧
    isErr (getUidById dir ⟨false, false⟩ s) = false ∧
    getUidById dir ⟨false, false⟩ s = getUidById dir2 ⟨false, false⟩ s ∧
    ∀ act, cellOutcome act (resolveCaught (getUidById dir ⟨false, false⟩) s)
      ≠ Outcome.ResolutionFailed := by
  have key : ∀ d : Directory, getUidById d ⟨false, false⟩ s = Except.ok s := by
    intro d; unfold getUidById; rw [he, hp]; simp
  refine ⟨key dir, ?_, (key dir).trans (key dir2).symm, ?_⟩
  · rw [key dir]; rfl
  · intro act
    have hcell : resolveCaught (getUidById dir ⟨false, false⟩) s = some s := by
      simp [resolveCaught, key dir, Except.toOption]
    rw [hcell]
    unfold cellOutcome
    by_cases hs : s = ""
    · simp [hs]
    · simp only [hs, if_false]
      cases act s <;> simp

/-- Witness for `opaque_resolution_never_fails` at `"bad-id"`. -/
theorem opaque_resolution_never_fails_witness :
    getUidById dirNone ⟨false, false⟩ "bad-id" = Except.ok "bad-id" ∧
    isErr (getUidById dirNone ⟨false, false⟩ "bad-id") = false ∧
    getUidById dirNone ⟨false, false⟩ "bad-id"
      = getUidById dirPhoneOnly ⟨false, false⟩ "bad-id" ∧
    ∀ act, cellOutcome act (resolveCaught (getUidById dirNone ⟨false, false⟩) "bad-id")
      ≠ Outcome.ResolutionFailed :=
  opaque_resolution_never_fails dirNone dirPhoneOnly "bad-id"
    (by decide) (by decide)

/-! ### Batch runner claims -/

/-- `Promise.all` over a list of promises that all settled successfully
resolves to the values in request order. -/
theorem promiseAll_map_ok {ε α β : Type} (f : α → β) (l : List α) :
    promiseAll (l.map fun x => (Except.ok (f x) : Except ε β))
      = Except.ok (l.map f) := by
  induction l with
  | nil => rfl
  | cons x xs ih => simp [promiseAll, ih, Except.map]

/-- A caught action promise settles successfully whatever the action
did. -/
theorem actCaught_eq_ok (act : String → Except String UserRecord)
    (uid : String) : actCaught act uid = Except.ok () := by
  unfold actCaught
  cases act uid <;> rfl

/-- C2 counterexample: for the batch `[""]` the resolution step succeeds
(the empty string matches neither shape, so it resolves verbatim), hence
k = 0 resolution failures and the claim predicts N - k = 1 identifiers
proceeding to the action stage; but the `if (!uid)` check also skips the
falsy empty uid, so 0 identifiers proceed. -/
theorem batch_count_empty_uid_cex :
    getUidById dirNone ⟨false, false⟩ "" = Except.ok "" ∧
    runBatchOutcomes (getUidById dirNone ⟨false, false⟩) actOk [""]
      = [Outcome.SkippedFalsyUid] ∧
    (runBatchOutcomes (getUidById dirNone ⟨false, false⟩) actOk [""]).countP
        isResolutionFailed = 0 ∧
    (runBatchOutcomes (getUidById dirNone ⟨false, false⟩) actOk [""]).countP
        proceeded ≠ 1 := by
  refine ⟨by decide, by decide, by decide, by decide⟩

/-- C2 amended: provided every successful resolution in the batch yields
a non-empty uid (true of real directory uids; the falsy check otherwise
also skips a successfully resolved empty uid), a batch of N identifiers
of which k fail to resolve yields exactly N outcomes, exactly k of them
ResolutionFailed, and exactly N - k proceeding to the action stage. -/
theorem runBatch_counts (resolve : String → Except String String)
    (act : String → Except String UserRecord) (ids : List String)
    (hne : resolvedNonEmptyOn resolve ids = true) :
    (runBatchOutcomes resolve act ids).length = ids.length ∧
    (runBatchOutcomes resolve act ids).countP isResolutionFailed
      = ids.countP (fun id => isErr (resolve id)) ∧
    (runBatchOutcomes resolve act ids).countP proceeded
      = ids.length - ids.countP (fun id => isErr (resolve id)) := by
  induction ids with
  | nil => exact ⟨rfl, rfl, rfl⟩
  | cons id rest ih =>
    simp only [resolvedNonEmptyOn, List.all_cons, Bool.and_eq_true] at hne
    obtain ⟨hid, hrest⟩ := hne
    obtain ⟨ihl, ihr, ihp⟩ := ih hrest
    have hkle : (rest.countP fun id => isErr (resolve id)) ≤ rest.length :=
      List.countP_le_length _
    have hcons : runBatchOutcomes resolve act (id :: rest)
        = cellOutcome act (resolveCaught resolve id)
          :: runBatchOutcomes resolve act rest := by
      simp [runBatchOutcomes]
    cases h : resolve id with
    | error e =>
      have hcell : resolveCaught resolve id = none := by
        simp [resolveCaught, h, Except.toOption]
      refine ⟨?_, ?_, ?_⟩
      · simp [hcons, ihl]
      · simp [hcons, hcell, cellOutcome, List.countP_cons, ihr,
          isResolutionFailed, isErr, h]
      · rw [hcons, hcell]
        show List.countP proceeded
            (Outcome.ResolutionFailed :: runBatchOutcomes resolve act rest) = _
        rw [List.countP_cons_of_neg _ _ (by simp [proceeded])]
        rw [List.countP_cons_of_pos _ _ (by simp [isErr, h])]
        rw [ihp]
        simp only [List.length_cons]
        omega
    | ok uid =>
      rw [h] at hid
      simp only [Bool.not_eq_true'] at hid
      have huid : uid ≠ "" := by
        intro hcontra
        rw [hcontra] at hid
        simp at hid
      have hcell : resolveCaught resolve id = some uid := by
        simp [resolveCaught, h, Except.toOption]
      have hco : cellOutcome act (some uid) = Outcome.Done ∨
          cellOutcome act (some uid) = Outcome.ActionFailed := by
        unfold cellOutcome
        simp only [huid, if_false]
        cases act uid <;> simp
      have hrf : isResolutionFailed (cellOutcome act (some uid)) = false := by
        rcases hco with h2 | h2 <;> simp [h2, isResolutionFailed]
      have hpr : proceeded (cellOutcome act (some uid)) = true := by
        rcases hco with h2 | h2 <;> simp [h2, proceeded]
      refine ⟨?_, ?_, ?_⟩
      · simp [hcons, ihl]
      · rw [hcons, hcell]
        rw [List.countP_cons_of_neg _ _ (by simp [hrf])]
        rw [List.countP_cons_of_neg _ _ (by simp [isErr, h])]
        exact ihr
      · rw [hcons, hcell]
        rw [List.countP_cons_of_pos _ _ (by simp [hpr])]
        rw [List.countP_cons_of_neg _ _ (by simp [isErr, h])]
        rw [ihp]
        simp only [List.length_cons]
        omega

/-- Witness for `runBatch_counts`: a batch of three identifiers of which
exactly one fails to resolve yields three outcomes, one ResolutionFailed
and two proceeding to the action stage. -/
theorem runBatch_counts_witness :
    resolvedNonEmptyOn (getUidById dirNone ⟨false, false⟩)
        ["a@x.com", "bad-id", "opaque"] = true ∧
    (runBatchOutcomes (getUidById dirNone ⟨false, false⟩) actOk
        ["a@x.com", "bad-id", "opaque"]).length = 3 ∧
    (runBatchOutcomes (getUidById dirNone ⟨false, false⟩) actOk
        ["a@x.com", "bad-id", "opaque"]).countP isResolutionFailed
      = (["a@x.com", "bad-id", "opaque"].countP
          (fun id => isErr (getUidById dirNone ⟨false, false⟩ id))) ∧
    (runBatchOutcomes (getUidById dirNone ⟨false, false⟩) actOk
        ["a@x.com", "bad-id", "opaque"]).countP proceeded
      = 3 - (["a@x.com", "bad-id", "opaque"].countP
          (fun id => isErr (getUidById dirNone ⟨false, false⟩ id))) := by
  have h := runBatch_counts (getUidById dirNone ⟨false, false⟩) actOk
    ["a@x.com", "bad-id", "opaque"] (by decide)
  exact ⟨by decide, h.1, h.2.1, h.2.2⟩

/-- C3: per-identifier failure isolation in a batch of three: when the
first and third identifiers resolve to non-falsy uids on which the
action succeeds, and the middle identifier's resolution or action fails,
the outer two still reach Done and the middle ends ActionFailed or
ResolutionFailed. -/
theorem batch_middle_failure_isolated
    (resolve : String → Except String String)
    (act : String → Except String UserRecord) (a b c ua uc : String)
    (ra rc : UserRecord)
    (ha : resolve a = Except.ok ua) (hua : ua ≠ "")
    (hacta : act ua = Except.ok ra)
    (hc : resolve c = Except.ok uc) (huc : uc ≠ "")
    (hactc : act uc = Except.ok rc)
    (hb : middleFails resolve act b = true) :
    ∃ x, (x = Outcome.ActionFailed ∨ x = Outcome.ResolutionFailed) ∧
      runBatchOutcomes resolve act [a, b, c]
        = [Outcome.Done, x, Outcome.Done] := by
  have hcells : runBatchOutcomes resolve act [a, b, c]
      = [cellOutcome act (resolveCaught resolve a),
         cellOutcome act (resolveCaught resolve b),
         cellOutcome act (resolveCaught resolve c)] := by
    simp [runBatchOutcomes]
  have hA : cellOutcome act (resolveCaught resolve a) = Outcome.Done := by
    simp [resolveCaught, ha, Except.toOption, cellOutcome, hua, hacta]
  have hC : cellOutcome act (resolveCaught resolve c) = Outcome.Done := by
    simp [resolveCaught, hc, Except.toOption, cellOutcome, huc, hactc]
  cases hbres : resolve b with
  | error e =>
    refine ⟨Outcome.ResolutionFailed, Or.inr rfl, ?_⟩
    rw [hcells, hA, hC]
    simp [resolveCaught, hbres, Except.toOption, cellOutcome]
  | ok ub =>
    unfold middleFails at hb
    rw [hbres] at hb
    simp only [Bool.and_eq_true, Bool.not_eq_true'] at hb
    obtain ⟨hub, herr⟩ := hb
    have hub' : ub ≠ "" := by
      intro hcontra
      rw [hcontra] at hub
      simp at hub
    cases hbact : act ub with
    | ok r =>
      rw [hbact] at herr
      simp [isErr] at herr
    | error e =>
      refine ⟨Outcome.ActionFailed, Or.inl rfl, ?_⟩
      rw [hcells, hA, hC]
      simp [resolveCaught, hbres, Except.toOption, cellOutcome, hub', hbact]

/-- Witness for `batch_middle_failure_isolated`: the spec's example
batch, the action failing exactly on the middle identifier's resolved
id. -/
theorem batch_middle_failure_isolated_witness :
    ∃ x, (x = Outcome.ActionFailed ∨ x = Outcome.ResolutionFailed) ∧
      runBatchOutcomes resolveW actW ["a@x.com", "bad-id", "b@x.com"]
        = [Outcome.Done, x, Outcome.Done] :=
  batch_middle_failure_isolated resolveW actW "a@x.com" "bad-id" "b@x.com"
    "u1" "u2" ⟨"u1", none, false, none, none, none, true⟩
    ⟨"u2", none, false, none, none, none, true⟩
    (by decide) (by decide) (by decide) (by decide) (by decide) (by decide)
    (by decide)

/-- C4: the batch command exits 0 once all per-identifier promises have
settled, regardless of how many individual items failed: both
`Promise.all` joins receive only caught, never-rejecting promises, so
the `error(...)` handlers (exit 1) are reachable only from an
orchestration-level rejection, which the per-item catch structure rules
out. -/
theorem disable_exit_zero (resolve : String → Except String String)
    (act : String → Except String UserRecord) (ids : List String) :
    disableCommand resolve act ids = 0 := by
  have h1 : promiseAll (ids.map fun id =>
      (Except.ok (resolveCaught resolve id) : Except String (Option String)))
      = Except.ok (ids.map (resolveCaught resolve)) :=
    promiseAll_map_ok _ _
  have h2 : promiseAll (((ids.map (resolveCaught resolve)).filter
        fun c => !falsyCell c).map fun c => actCaught act (c.getD ""))
      = Except.ok ((((ids.map (resolveCaught resolve)).filter
        fun c => !falsyCell c)).map fun _ => ()) := by
    rw [List.map_congr_left (fun c _ => actCaught_eq_ok act (c.getD ""))]
    exact promiseAll_map_ok _ _
  simp only [disableCommand, h1, h2]

/-- `Promise.all`'s cell array after an arbitrary prefix of completion
events: a queried cell holds its request's result iff that request has
completed, and is otherwise untouched. -/
theorem foldl_set_getElem {α : Type} (results : Nat → α) (order : List Nat)
    (acc : List (Option α)) (i : Nat) (h : i < acc.length) :
    (order.foldl (fun a j => a.set j (some (results j))) acc)[i]?
      = if i ∈ order then some (some (results i)) else acc[i]? := by
  induction order generalizing acc with
  | nil => simp
  | cons j rest ih =>
    rw [List.foldl_cons, ih (acc.set j (some (results j))) (by simpa using h)]
    by_cases hir : i ∈ rest
    · simp [hir, List.mem_cons]
    · by_cases hij : i = j
      · subst hij
        simp [hir, List.mem_cons, List.getElem?_set_self h]
      · have hne2 : (acc.set j (some (results j)))[i]? = acc[i]? :=
          List.getElem?_set_ne (fun e => hij e.symm)
        simp [hir, List.mem_cons, hij, hne2]

/-- Settling events preserve the cell-array length. -/
theorem foldl_set_length {α : Type} (results : Nat → α) (order : List Nat)
    (acc : List (Option α)) :
    (order.foldl (fun a j => a.set j (some (results j))) acc).length
      = acc.length := by
  induction order generalizing acc with
  | nil => rfl
  | cons j rest ih =>
    rw [List.foldl_cons, ih]
    simp

/-- Once every request index has settled, the aggregated array holds the
results in request-index order, whatever order the events arrived in. -/
theorem settleAll_eq {α : Type} (n : Nat) (results : Nat → α)
    (order : List Nat) (hcov : ∀ i, i < n → i ∈ order) :
    settleAll n results order
      = (List.range n).map fun i => some (results i) := by
  apply List.ext_getElem?
  intro i
  by_cases h : i < n
  · have hfold := foldl_set_getElem results order (List.replicate n none) i
      (by simpa using h)
    unfold settleAll
    rw [hfold]
    simp [hcov i h, List.getElem?_range h]
  · have h1 : (settleAll n results order).length = n := by
      unfold settleAll
      rw [foldl_set_length]
      simp
    rw [List.getElem?_eq_none (by rw [h1]; omega),
      List.getElem?_eq_none (by simp; omega)]

/-- Reindexing: the per-request results listed over the index range are
exactly the per-identifier results over the input list. -/
theorem range_map_eq_map {α : Type} (ids : List String) (f : String → α) :
    ((List.range ids.length).map fun i => some (f (ids.getD i "")))
      = ids.map fun id => some (f id) := by
  apply List.ext_getElem?
  intro i
  by_cases h : i < ids.length
  · simp [List.getElem?_range h, List.getD_eq_getElem?_getD,
      List.getElem?_eq_getElem h]
  · rw [List.getElem?_eq_none (by simp; omega),
      List.getElem?_eq_none (by simp; omega)]

/-- C5: `Promise.all` assembles its result by request index: whatever
order the concurrently dispatched resolution promises (for
disable/enable/delete/revoke) or user-fetch promises (for get) settle
in, once all have settled the aggregated array handed to the next stage
lists the per-identifier results in input order. -/
theorem batch_aggregation_input_order (dir : Directory) (opts : Opts)
    (ids : List String) (order order2 : List Nat)
    (hcov : ∀ i, i < ids.length → i ∈ order)
    (hcov2 : ∀ i, i < ids.length → i ∈ order2) :
    settleAll ids.length
        (fun i => resolveCaught (getUidById dir opts) (ids.getD i "")) order
      = ids.map (fun id => some (resolveCaught (getUidById dir opts) id)) ∧
    settleAll ids.length
        (fun i => (getUserById dir opts (ids.getD i "")).toOption) order2
      = ids.map (fun id => some ((getUserById dir opts id).toOption)) := by
  constructor
  · rw [settleAll_eq _ _ order hcov]
    exact range_map_eq_map ids (resolveCaught (getUidById dir opts))
  · rw [settleAll_eq _ _ order2 hcov2]
    exact range_map_eq_map ids (fun id => (getUserById dir opts id).toOption)

/-- Witness for `batch_aggregation_input_order`: two identifiers whose
resolutions settle in reverse order still aggregate in input order. -/
theorem batch_aggregation_input_order_witness :
    settleAll (List.length ["x", "y"])
        (fun i => resolveCaught (getUidById dirNone ⟨false, false⟩)
          (["x", "y"].getD i "")) [1, 0]
      = ["x", "y"].map (fun id => some (resolveCaught
          (getUidById dirNone ⟨false, false⟩) id)) ∧
    settleAll (List.length ["x", "y"])
        (fun i => (getUserById dirNone ⟨false, false⟩
          (["x", "y"].getD i "")).toOption) [0, 1]
      = ["x", "y"].map (fun id => some ((getUserById dirNone ⟨false, false⟩
          id).toOption)) :=
  batch_aggregation_input_order dirNone ⟨false, false⟩ ["x", "y"] [1, 0]
    [0, 1] (by decide) (by decide)

/-! ### Create/update claims -/

/-- The `|| undefined` coercion is the identity on a non-empty (or
absent) string field. -/
theorem orUndefStr_truthy (o : Option String) (h : truthyOpt o = true) :
    orUndefStr o = o := by
  cases o with
  | none => rfl
  | some s =>
    simp only [truthyOpt, Bool.not_eq_true'] at h
    have hs : s ≠ "" := by
      intro hcontra
      rw [hcontra] at h
      simp at h
    simp [orUndefStr, hs]

/-- C8 counterexample: create with a supplied — but falsy — empty-string
email, then get on the returned id: the fetch succeeds, but the
record's email is absent rather than the supplied empty string, because
the `|| undefined` coercion dropped the field before the service call. -/
theorem create_get_empty_email_cex :
    newUserCex.email = some "" ∧
    (createUser "u1" newUserCex []).1.email = none ∧
    getUserById (storeDirectory (createUser "u1" newUserCex []).2)
        ⟨false, false⟩ (createUser "u1" newUserCex []).1.uid
      = Except.ok (createUser "u1" newUserCex []).1 ∧
    (createUser "u1" newUserCex []).1.email ≠ newUserCex.email := by
  refine ⟨by decide, by decide, by decide, by decide⟩

/-- C8 amended: create followed immediately by get on the returned id
yields a record matching every supplied settable field, provided each
supplied string field is non-empty — a falsy supplied string is dropped
by the `|| undefined` coercion and comes back absent (see the
counterexample) — while supplied booleans always round-trip (false is
dropped too, but the service defaults the flag to false). Side
conditions: the stored uid is fresh for the store and opaque-shaped,
and no force flag is set, so the get resolves through the uid lookup. -/
theorem create_then_get_roundtrip (genUid : String) (f : NewUser)
    (st : Store)
    (hfresh : st.all (fun r => !(r.uid == createdUid genUid f)) = true)
    (hoe : isEmail (createdUid genUid f) = false)
    (hop : isPhoneNumber (createdUid genUid f) = false)
    (hemail : truthyOpt f.email = true)
    (hdn : truthyOpt f.displayName = true)
    (hpn : truthyOpt f.phoneNumber = true)
    (hpu : truthyOpt f.photoURL = true) :
    getUserById (storeDirectory (createUser genUid f st).2) ⟨false, false⟩
        (createUser genUid f st).1.uid
      = Except.ok (createUser genUid f st).1 ∧
    (createUser genUid f st).1.email = f.email ∧
    (createUser genUid f st).1.displayName = f.displayName ∧
    (createUser genUid f st).1.phoneNumber = f.phoneNumber ∧
    (createUser genUid f st).1.photoURL = f.photoURL ∧
    (∀ b, f.emailVerified = some b →
      (createUser genUid f st).1.emailVerified = b) ∧
    (∀ b, f.disabled = some b → (createUser genUid f st).1.disabled = b) := by
  have hget : serviceGetUser (createUser genUid f st).2
      ((createUser genUid f st).1.uid)
      = Except.ok (createUser genUid f st).1 := by
    unfold serviceGetUser
    have h1 : (createUser genUid f st).2
        = st ++ [(createUser genUid f st).1] := rfl
    rw [h1, List.find?_append]
    have h2 : st.find?
        (fun q => q.uid == (createUser genUid f st).1.uid) = none := by
      rw [List.find?_eq_none]
      intro x hx
      have h3 := (List.all_eq_true.mp hfresh) x hx
      simp only [Bool.not_eq_true'] at h3
      have h4 : (x.uid == (createUser genUid f st).1.uid) = false := h3
      simp [h4]
    rw [h2]
    simp [List.find?]
  have hfetch : getUserById (storeDirectory (createUser genUid f st).2)
      ⟨false, false⟩ ((createUser genUid f st).1.uid)
      = Except.ok (createUser genUid f st).1 := by
    unfold getUserById
    rw [show isEmail ((createUser genUid f st).1.uid) = false from hoe,
        show isPhoneNumber ((createUser genUid f st).1.uid) = false from hop]
    simpa [storeDirectory] using hget
  refine ⟨hfetch, ?_, ?_, ?_, ?_, ?_, ?_⟩
  · exact orUndefStr_truthy f.email hemail
  · exact orUndefStr_truthy f.displayName hdn
  · exact orUndefStr_truthy f.phoneNumber hpn
  · exact orUndefStr_truthy f.photoURL hpu
  · intro b hb
    show (orUndefBool f.emailVerified).getD false = b
    rw [hb]
    cases b <;> rfl
  · intro b hb
    show (orUndefBool f.disabled).getD false = b
    rw [hb]
    cases b <;> rfl

/-- Witness for `create_then_get_roundtrip`: a fully supplied field set
with non-empty strings, created into the empty store. -/
theorem create_then_get_roundtrip_witness :
    getUserById (storeDirectory (createUser "u9" newUserW []).2)
        ⟨false, false⟩ (createUser "u9" newUserW []).1.uid
      = Except.ok (createUser "u9" newUserW []).1 ∧
    (createUser "u9" newUserW []).1.email = newUserW.email ∧
    (createUser "u9" newUserW []).1.displayName = newUserW.displayName ∧
    (createUser "u9" newUserW []).1.phoneNumber = newUserW.phoneNumber ∧
    (createUser "u9" newUserW []).1.photoURL = newUserW.photoURL ∧
    (∀ b, newUserW.emailVerified = some b →
      (createUser "u9" newUserW []).1.emailVerified = b) ∧
    (∀ b, newUserW.disabled = some b →
      (createUser "u9" newUserW []).1.disabled = b) :=
  create_then_get_roundtrip "u9" newUserW [] (by decide) (by decide)
    (by decide) (by decide) (by decide) (by decide) (by decide)

/-- C9: `updateUser` coerces every falsy supplied field to `undefined`,
so the partial update omits it and the stored value stays: a field
supplied as false, the empty string, or not at all leaves the previous
value unchanged — in particular an update can never set emailVerified
or disabled back to false. -/
theorem update_falsy_fields_frame (uid : String) (f : NewUser) (st : Store)
    (r r2 : UserRecord) (st2 : Store)
    (hfind : st.find? (fun q => q.uid == uid) = some r)
    (hupd : updateUser uid f st = Except.ok (r2, st2)) :
    (f.disabled ≠ some true → r2.disabled = r.disabled) ∧
    (f.emailVerified ≠ some true → r2.emailVerified = r.emailVerified) ∧
    ((f.email = none ∨ f.email = some "") → r2.email = r.email) ∧
    ((f.displayName = none ∨ f.displayName = some "") →
      r2.displayName = r.displayName) ∧
    ((f.phoneNumber = none ∨ f.phoneNumber = some "") →
      r2.phoneNumber = r.phoneNumber) ∧
    ((f.photoURL = none ∨ f.photoURL = some "") →
      r2.photoURL = r.photoURL) := by
  unfold updateUser serviceUpdate at hupd
  rw [hfind] at hupd
  simp only [Except.ok.injEq, Prod.mk.injEq] at hupd
  obtain ⟨h1, h2⟩ := hupd
  refine ⟨?_, ?_, ?_, ?_, ?_, ?_⟩
  · intro hd
    rw [← h1]
    show (orUndefBool f.disabled).getD r.disabled = r.disabled
    cases hd2 : f.disabled with
    | none => rfl
    | some b =>
      cases b with
      | true => exact absurd hd2 hd
      | false => rfl
  · intro hv
    rw [← h1]
    show (orUndefBool f.emailVerified).getD r.emailVerified = r.emailVerified
    cases hv2 : f.emailVerified with
    | none => rfl
    | some b =>
      cases b with
      | true => exact absurd hv2 hv
      | false => rfl
  · intro h
    rw [← h1]
    show mergeField (orUndefStr f.email) r.email = r.email
    rcases h with h | h <;> rw [h] <;> rfl
  · intro h
    rw [← h1]
    show mergeField (orUndefStr f.displayName) r.displayName = r.displayName
    rcases h with h | h <;> rw [h] <;> rfl
  · intro h
    rw [← h1]
    show mergeField (orUndefStr f.phoneNumber) r.phoneNumber = r.phoneNumber
    rcases h with h | h <;> rw [h] <;> rfl
  · intro h
    rw [← h1]
    show mergeField (orUndefStr f.photoURL) r.photoURL = r.photoURL
    rcases h with h | h <;> rw [h] <;> rfl

/-- Witness for `update_falsy_fields_frame`: updating a record whose
flags are raised with an all-falsy field set changes nothing. -/
theorem update_falsy_fields_frame_witness :
    (fW.disabled ≠ some true → rW.disabled = rW.disabled) ∧
    (fW.emailVerified ≠ some true → rW.emailVerified = rW.emailVerified) ∧
    ((fW.email = none ∨ fW.email = some "") → rW.email = rW.email) ∧
    ((fW.displayName = none ∨ fW.displayName = some "") →
      rW.displayName = rW.displayName) ∧
    ((fW.phoneNumber = none ∨ fW.phoneNumber = some "") →
      rW.phoneNumber = rW.phoneNumber) ∧
    ((fW.photoURL = none ∨ fW.photoURL = some "") →
      rW.photoURL = rW.photoURL) :=
  update_falsy_fields_frame "u1" fW [rW] rW rW [rW] (by decide) (by decide)
